import Mathlib

set_option maxRecDepth 4000

/-!
Verification development for the calibration-and-observation core of a
quantitative-finance library: the composed parameter constraint of
`CalibratedModel` (ql/models/shortrate/model.hpp), its update/notification
protocol, the `TermStructureConsistentModel` handle wrapper, and the
curve-decorator family (implied, spreaded, composite) exercised by
test-suite/termstructures.cpp.
-/

namespace QuantLib

/-! ## Part 1: CalibratedModel's composed constraint

Embedding of `CalibratedModel::PrivateConstraint::Impl::test` from
ql/models/shortrate/model.hpp. A `Parameter` is used by that code only
through its `size()` and `testParams(Array)` members, so it is embedded as
a size together with a boolean predicate on coefficient slices. Array
element reads are embedded as `List.getElem?`: an out-of-bounds read has
no defined value in the source (unchecked pointer access), so the whole
evaluation is `Option`-valued and an out-of-bounds read yields `none`. -/

/-- Interface of `Parameter` as consumed by the composed constraint:
a declared size and a feasibility predicate over a raw-coefficient slice. -/
structure Parameter (α : Type) where
  size : Nat
  testParams : List α → Bool

/-- Sum of the declared sizes of a parameter list (the length the composed
vector is expected to have). -/
def totalSize {α : Type} (arguments : List (Parameter α)) : Nat :=
  (arguments.map Parameter.size).sum

/-- Embeds the inner loop `for (j=0; j<size; j++, k++) testParams[j] = params[k]`:
reads `params[k], params[k+1], ..., params[k+n-1]` in order, failing with
`none` at the first out-of-bounds read. -/
def readSlice {α : Type} (params : List α) : Nat → Nat → Option (List α)
  | _, 0 => some []
  | k, Nat.succ n =>
    match params[k]? with
    | none => none
    | some x =>
      match readSlice params (k+1) n with
      | none => none
      | some rest => some (x :: rest)

/-- Embeds the outer loop of `PrivateConstraint::Impl::test`: for each
parameter in order, extract its slice starting at running offset `k`, and
return `false` as soon as one parameter rejects its slice. -/
def testLoop {α : Type} (params : List α) : List (Parameter α) → Nat → Option Bool
  | [], _ => some true
  | a :: rest, k =>
    match readSlice params k a.size with
    | none => none
    | some slice =>
      if a.testParams slice then testLoop params rest (k + a.size) else some false

/-- Embedding of `bool CalibratedModel::PrivateConstraint::Impl::test(const Array&)`
(model.hpp lines 137-148): the offset `k` starts at 0. -/
def PrivateConstraintImpl.test {α : Type} (arguments : List (Parameter α))
    (params : List α) : Option Bool :=
  testLoop params arguments 0

/-- Specification-side composed constraint: partition the vector into
contiguous slices sized by each parameter's declared size, in declared
order, and AND the per-parameter feasibility verdicts. -/
def slicesSpec {α : Type} : List (Parameter α) → List α → Bool
  | [], _ => true
  | a :: rest, v => a.testParams (v.take a.size) && slicesSpec rest (v.drop a.size)

/-! ### Lemmas about the constraint loop -/

theorem readSlice_eq_of_le {α : Type} (params : List α) :
    ∀ (n k : Nat), k + n ≤ params.length →
      readSlice params k n = some ((params.drop k).take n) := by
  intro n
  induction n with
  | zero => intro k _; simp [readSlice]
  | succ n ih =>
    intro k hk
    have hklt : k < params.length := by omega
    have h1 : params[k]? = some params[k] := List.getElem?_eq_getElem hklt
    have h2 : readSlice params (k+1) n = some ((params.drop (k+1)).take n) :=
      ih (k+1) (by omega)
    have h3 : params.drop k = params[k] :: params.drop (k+1) :=
      List.drop_eq_getElem_cons hklt
    rw [readSlice.eq_2, h1, h2, h3, List.take_succ_cons]

theorem testLoop_eq_of_le {α : Type} (arguments : List (Parameter α)) :
    ∀ (params : List α) (k : Nat), k + totalSize arguments ≤ params.length →
      testLoop params arguments k = some (slicesSpec arguments (params.drop k)) := by
  induction arguments with
  | nil => intro params k _; simp [testLoop, slicesSpec]
  | cons a rest ih =>
    intro params k hk
    have htot : totalSize (a :: rest) = a.size + totalSize rest := by
      simp [totalSize]
    have hslice : readSlice params k a.size = some ((params.drop k).take a.size) :=
      readSlice_eq_of_le params a.size k (by omega)
    have hdd : (params.drop k).drop a.size = params.drop (k + a.size) := by
      rw [List.drop_drop]
    by_cases hp : a.testParams ((params.drop k).take a.size)
    · have hrest : testLoop params rest (k + a.size)
          = some (slicesSpec rest (params.drop (k + a.size))) :=
        ih params (k + a.size) (by omega)
      simp [testLoop, hslice, slicesSpec, hp, hrest, hdd]
    · simp [testLoop, hslice, slicesSpec, hp]

theorem getElem?_congr_of_take_eq {α : Type} {v₁ v₂ : List α} {n : Nat}
    (h : v₁.take n = v₂.take n) {i : Nat} (hi : i < n) : v₁[i]? = v₂[i]? := by
  have h1 : (v₁.take n)[i]? = v₁[i]? := List.getElem?_take_of_lt hi
  have h2 : (v₂.take n)[i]? = v₂[i]? := List.getElem?_take_of_lt hi
  rw [← h1, ← h2, h]

theorem readSlice_congr {α : Type} {v₁ v₂ : List α} :
    ∀ (n k : Nat), v₁.take (k + n) = v₂.take (k + n) →
      readSlice v₁ k n = readSlice v₂ k n := by
  intro n
  induction n with
  | zero => intro k _; simp [readSlice]
  | succ n ih =>
    intro k h
    have hk : v₁[k]? = v₂[k]? := getElem?_congr_of_take_eq h (by omega)
    have hrec : readSlice v₁ (k+1) n = readSlice v₂ (k+1) n := by
      apply ih (k+1)
      have : k + 1 + n = k + (n + 1) := by omega
      rw [this]; exact h
    simp [readSlice, hk, hrec]

theorem take_mono_of_take_eq {α : Type} {v₁ v₂ : List α} {m n : Nat}
    (hmn : m ≤ n) (h : v₁.take n = v₂.take n) : v₁.take m = v₂.take m := by
  have h1 : v₁.take m = (v₁.take n).take m := by
    rw [List.take_take, Nat.min_eq_left hmn]
  have h2 : v₂.take m = (v₂.take n).take m := by
    rw [List.take_take, Nat.min_eq_left hmn]
  rw [h1, h2, h]

theorem testLoop_congr {α : Type} (arguments : List (Parameter α)) :
    ∀ (v₁ v₂ : List α) (k : Nat),
      v₁.take (k + totalSize arguments) = v₂.take (k + totalSize arguments) →
      testLoop v₁ arguments k = testLoop v₂ arguments k := by
  induction arguments with
  | nil => intro v₁ v₂ k _; simp [testLoop]
  | cons a rest ih =>
    intro v₁ v₂ k h
    have htot : totalSize (a :: rest) = a.size + totalSize rest := by
      simp [totalSize]
    have hs : readSlice v₁ k a.size = readSlice v₂ k a.size := by
      apply readSlice_congr
      exact take_mono_of_take_eq (by omega) h
    have hrec : testLoop v₁ rest (k + a.size) = testLoop v₂ rest (k + a.size) := by
      apply ih
      have : k + a.size + totalSize rest = k + totalSize (a :: rest) := by omega
      rw [this]; exact h
    cases hcase : readSlice v₂ k a.size with
    | none => simp [testLoop, hs, hcase]
    | some slice =>
      by_cases hp : a.testParams slice
      · simp [testLoop, hs, hcase, hp, hrec]
      · simp [testLoop, hs, hcase, hp]

/-! ### Claims C1, C2, C9 about the composed constraint -/

/-- Concrete parameter list used to evaluate the constraint embedding:
a size-1 parameter requiring strict positivity and a size-2 parameter
requiring non-negativity, so the total composed length is 3. -/
def demoArguments : List (Parameter Int) :=
  [⟨1, fun v => v.all (fun x => decide (0 < x))⟩,
   ⟨2, fun v => v.all (fun x => decide (0 ≤ x))⟩]

/-- Claim C2: on a vector whose length equals the sum of the declared
Parameter sizes, the composed constraint partitions the vector into
contiguous slices of the declared sizes, in declaration order, and returns
the logical AND of each parameter's testParams on its slice; an infeasible
slice yields the value false, not an error. -/
theorem privateConstraint_test_partitions {α : Type}
    (arguments : List (Parameter α)) (v : List α)
    (h : v.length = totalSize arguments) :
    PrivateConstraintImpl.test arguments v = some (slicesSpec arguments v) := by
  have h0 : (0 : Nat) + totalSize arguments ≤ v.length := by omega
  have := testLoop_eq_of_le arguments v 0 h0
  simpa [PrivateConstraintImpl.test] using this

/-- Witness for C2 at a concrete model and vector. -/
theorem privateConstraint_test_partitions_witness :
    ([1, 0, 3] : List Int).length = totalSize demoArguments ∧
    PrivateConstraintImpl.test demoArguments [1, 0, 3]
      = some (slicesSpec demoArguments [1, 0, 3]) :=
  ⟨by decide, privateConstraint_test_partitions demoArguments [1, 0, 3] (by decide)⟩

/-- Counterexample to claim C1 as stated: a vector strictly longer than the
sum of the Parameter sizes does not make the composed constraint signal a
contract violation; the loop reads only the slice prefix and returns an
ordinary boolean verdict, silently ignoring the trailing entries. -/
theorem privateConstraint_no_length_guard_counterexample :
    ([5, 9, 9, 9] : List Int).length ≠ totalSize demoArguments ∧
    PrivateConstraintImpl.test demoArguments [5, 9, 9, 9] = some true ∧
    PrivateConstraintImpl.test demoArguments [5, 9, 9, 9] ≠ none := by
  refine ⟨by decide, by decide, by decide⟩

/-- Claim C1 amended: the composed constraint performs no length
validation; on any vector at least as long as the sum of the Parameter
sizes it returns the ordinary slice-AND verdict computed from the first
totalSize entries alone, silently truncating the rest (and a strictly
shorter vector leads to an out-of-bounds read, not an orderly check). -/
theorem privateConstraint_test_truncates {α : Type}
    (arguments : List (Parameter α)) (v : List α)
    (h : totalSize arguments ≤ v.length) :
    PrivateConstraintImpl.test arguments v
      = some (slicesSpec arguments (v.take (totalSize arguments))) := by
  have h1 : PrivateConstraintImpl.test arguments v
      = PrivateConstraintImpl.test arguments (v.take (totalSize arguments)) := by
    unfold PrivateConstraintImpl.test
    apply testLoop_congr
    rw [Nat.zero_add, List.take_take, Nat.min_self]
  have hlen : (0 : Nat) + totalSize arguments
      ≤ (v.take (totalSize arguments)).length := by
    rw [List.length_take]; omega
  have h2 := testLoop_eq_of_le arguments (v.take (totalSize arguments)) 0 hlen
  rw [h1]
  unfold PrivateConstraintImpl.test
  rw [h2, List.drop_zero]

/-- Witness for the amended C1 at a concrete over-long vector. -/
theorem privateConstraint_test_truncates_witness :
    totalSize demoArguments ≤ ([5, 9, 9, 9] : List Int).length ∧
    PrivateConstraintImpl.test demoArguments [5, 9, 9, 9]
      = some (slicesSpec demoArguments (([5, 9, 9, 9] : List Int).take
          (totalSize demoArguments))) :=
  ⟨by decide, privateConstraint_test_truncates demoArguments [5, 9, 9, 9] (by decide)⟩

/-- Claim C9: the composed constraint's verdict depends only on the first
totalSize entries of the input vector; two vectors agreeing on that prefix
(whatever their total lengths or trailing entries) receive the same
verdict, so entries beyond index totalSize - 1 are never read. -/
theorem privateConstraint_test_prefix_only {α : Type}
    (arguments : List (Parameter α)) (v₁ v₂ : List α)
    (h : v₁.take (totalSize arguments) = v₂.take (totalSize arguments)) :
    PrivateConstraintImpl.test arguments v₁
      = PrivateConstraintImpl.test arguments v₂ := by
  unfold PrivateConstraintImpl.test
  apply testLoop_congr
  simpa using h

/-- Witness for C9: two vectors with equal 3-entry prefixes but different
lengths and trailing entries get the same verdict. -/
theorem privateConstraint_test_prefix_only_witness :
    ([1, 0, 3, 77] : List Int).take (totalSize demoArguments)
      = ([1, 0, 3, -5, -6] : List Int).take (totalSize demoArguments) ∧
    PrivateConstraintImpl.test demoArguments [1, 0, 3, 77]
      = PrivateConstraintImpl.test demoArguments [1, 0, 3, -5, -6] :=
  ⟨by decide,
   privateConstraint_test_prefix_only demoArguments [1, 0, 3, 77] [1, 0, 3, -5, -6]
     (by decide)⟩

/-! ## Part 2: CalibratedModel.update and TermStructureConsistentModel

Embedding of `CalibratedModel::update` (model.hpp lines 81-84) and of the
`TermStructureConsistentModel` wrapper (model.hpp lines 64-74). The
`generateArguments` member is virtual with an empty default body, so the
model carries it as an arbitrary function on the argument vector; the
`notifyObservers` call (from the Observable base, outside this core) is
recorded as a trace event carrying the model's registered observers. A
`Handle` to a possibly-absent curve is embedded as an `Option`. -/

/-- Trace events emitted by one call to `CalibratedModel::update`. -/
inductive UpdateEvent (α : Type) where
  | generateArgumentsRun : UpdateEvent α
  | observersNotified : List Nat → UpdateEvent α
deriving DecidableEq

/-- Embedding of `CalibratedModel`: the argument vector `arguments_`, the
observers registered on the model (by id), and the virtual
`generateArguments` hook (identity for the default empty body). -/
structure CalibratedModel (α : Type) where
  arguments_ : List (Parameter α)
  observers : List Nat
  genArguments : List (Parameter α) → List (Parameter α)

/-- Embedding of `void CalibratedModel::update()`:
`generateArguments(); notifyObservers();` — run the hook on the argument
vector, then emit one notification to the model's own observers. The
returned trace lists what happened, in execution order. -/
def CalibratedModel.update {α : Type} (m : CalibratedModel α) :
    CalibratedModel α × List (UpdateEvent α) :=
  ({ m with arguments_ := m.genArguments m.arguments_ },
   [UpdateEvent.generateArgumentsRun, UpdateEvent.observersNotified m.observers])

/-- Recognizes a notification event in an update trace. -/
def isNotification {α : Type} : UpdateEvent α → Bool
  | UpdateEvent.observersNotified _ => true
  | UpdateEvent.generateArgumentsRun => false

/-- The composed constraint of a model, built over its own argument list
as `PrivateConstraint` does. -/
def CalibratedModel.constraintTest {α : Type} (m : CalibratedModel α)
    (params : List α) : Option Bool :=
  PrivateConstraintImpl.test m.arguments_ params

/-- Claim C3: every call to update first runs the generateArguments hook
and then fires exactly one notification, addressed to the model's own
observers, in that order: the trace is generateArguments followed by the
single notification, and the post-state's arguments are the hook's output
computed before the notification is emitted. -/
theorem calibratedModel_update_order {α : Type} (m : CalibratedModel α) :
    (m.update).2 = [UpdateEvent.generateArgumentsRun,
                    UpdateEvent.observersNotified m.observers] ∧
    ((m.update).2.countP isNotification) = 1 ∧
    (m.update).1.arguments_ = m.genArguments m.arguments_ := by
  refine ⟨rfl, ?_, rfl⟩
  simp [CalibratedModel.update, isNotification]

/-- Embedding of `TermStructureConsistentModel` (model.hpp lines 64-74):
the constructor stores the given handle (possibly empty, never
dereferenced), and `termStructure()` returns the stored handle; the class
has no other operation, so nothing ever replaces the handle. -/
structure TermStructureConsistentModel (κ : Type) where
  termStructure_ : Option κ

/-- Embedding of the constructor, which copies the handle into
`termStructure_` without inspecting or dereferencing it. -/
def TermStructureConsistentModel.ofHandle {κ : Type} (h : Option κ) :
    TermStructureConsistentModel κ :=
  { termStructure_ := h }

/-- Embedding of the `termStructure()` accessor. -/
def TermStructureConsistentModel.termStructure {κ : Type}
    (m : TermStructureConsistentModel κ) : Option κ :=
  m.termStructure_

/-- Claim C10: construction from any handle (the empty handle included)
succeeds without querying the underlying curve, and the accessor returns
exactly the handle given to the constructor — in particular the empty
handle round-trips — and no operation of the class replaces the stored
handle (constructor and accessor are its only operations, and the accessor
leaves the model unchanged). -/
theorem termStructureConsistentModel_roundtrip {κ : Type} (h : Option κ) :
    (TermStructureConsistentModel.ofHandle h).termStructure = h ∧
    (TermStructureConsistentModel.ofHandle (none : Option κ)).termStructure = none ∧
    ∀ m : TermStructureConsistentModel κ, m.termStructure = m.termStructure_ :=
  ⟨rfl, rfl, fun _ => rfl⟩

/-! ## Part 3: curve decorators (Implied, ForwardSpreaded, ZeroSpreaded,
CompositeZeroYield)

The decorator classes themselves are not under src/ (only their tests in
test-suite/termstructures.cpp are), so they are modelled from the spec.
Dates/times and rates are embedded as rationals; a curve is its rate
interface (discount, continuously-compounded zero rate, instantaneous
forward rate, reference date); a relinkable handle to a possibly-absent
curve is an `Option`; a query on an empty handle fails with a
"no underlying curve" condition, embedded as `Except.error`. -/

/-- Curve contract consumed and produced by every decorator: reference
date, discount factor, continuously-compounded zero rate, and
instantaneous forward rate (forwardRate at coinciding dates). -/
structure YieldCurve where
  referenceDate : ℚ
  discount : ℚ → ℚ
  zeroRate : ℚ → ℚ
  forward : ℚ → ℚ

/-- Modelled from the spec: `ImpliedTermStructure` (not under src/);
"discount(t) = underlying.discount(t) / underlying.discount(newReferenceDate)";
construction stores the handle without querying it. -/
structure ImpliedTermStructure where
  underlying : Option YieldCurve
  newReferenceDate : ℚ

/-- Discount query of the implied decorator: fails on an empty handle,
otherwise the underlying's discount ratio re-anchored at the new
reference date. -/
def ImpliedTermStructure.discount (i : ImpliedTermStructure) (t : ℚ) :
    Except String ℚ :=
  match i.underlying with
  | none => Except.error "no underlying curve"
  | some c => Except.ok (c.discount t / c.discount i.newReferenceDate)

/-- Relinking the implied decorator's underlying handle; total (never
fails), per the spec's relinking invariant. -/
def ImpliedTermStructure.linkTo (i : ImpliedTermStructure)
    (h : Option YieldCurve) : ImpliedTermStructure :=
  { i with underlying := h }

/-- Modelled from the spec: `ForwardSpreadedTermStructure` (not under
src/); "instantaneous forward rate at any date equals the underlying's
forward rate plus the spread quote's current value". -/
structure ForwardSpreadedTermStructure where
  underlying : Option YieldCurve
  spread : ℚ

/-- Instantaneous forward-rate query (forwardRate at coinciding dates) of
the forward-spreaded decorator. -/
def ForwardSpreadedTermStructure.forwardRate (s : ForwardSpreadedTermStructure)
    (t : ℚ) : Except String ℚ :=
  match s.underlying with
  | none => Except.error "no underlying curve"
  | some c => Except.ok (c.forward t + s.spread)

/-- Relinking the forward-spreaded decorator's underlying handle. -/
def ForwardSpreadedTermStructure.linkTo (s : ForwardSpreadedTermStructure)
    (h : Option YieldCurve) : ForwardSpreadedTermStructure :=
  { s with underlying := h }

/-- Modelled from the spec: `ZeroSpreadedTermStructure` (not under src/);
"zero rate at any date equals the underlying's zero rate plus the spread
quote's current value". -/
structure ZeroSpreadedTermStructure where
  underlying : Option YieldCurve
  spread : ℚ

/-- Zero-rate query of the zero-spreaded decorator. -/
def ZeroSpreadedTermStructure.zeroRate (z : ZeroSpreadedTermStructure)
    (t : ℚ) : Except String ℚ :=
  match z.underlying with
  | none => Except.error "no underlying curve"
  | some c => Except.ok (c.zeroRate t + z.spread)

/-- Reference-date query of the zero-spreaded decorator (forwarded to the
underlying, as exercised by the null-underlying tests). -/
def ZeroSpreadedTermStructure.referenceDate (z : ZeroSpreadedTermStructure) :
    Except String ℚ :=
  match z.underlying with
  | none => Except.error "no underlying curve"
  | some c => Except.ok c.referenceDate

/-- Relinking the zero-spreaded decorator's underlying handle. -/
def ZeroSpreadedTermStructure.linkTo (z : ZeroSpreadedTermStructure)
    (h : Option YieldCurve) : ZeroSpreadedTermStructure :=
  { z with underlying := h }

/-- Modelled from the spec: `CompositeZeroYieldStructure` (not under src/);
"combines two independent underlying curves' zero rates via a
caller-supplied binary real function at matching dates/day-count/
compounding", exposed through forwardRate at coinciding dates as the tests
query it. -/
structure CompositeZeroYieldStructure where
  curve1 : Option YieldCurve
  curve2 : Option YieldCurve
  f : ℚ → ℚ → ℚ

/-- Forward-rate query (at coinciding dates) of the composite decorator:
the combining function applied to the two underlyings' zero rates. -/
def CompositeZeroYieldStructure.forwardRate (s : CompositeZeroYieldStructure)
    (t : ℚ) : Except String ℚ :=
  match s.curve1, s.curve2 with
  | some c1, some c2 => Except.ok (s.f (c1.zeroRate t) (c2.zeroRate t))
  | _, _ => Except.error "no underlying curve"

/-! ### Claims C4 - C7 about the decorators -/

/-- Claim C4: each decorator constructs over an empty handle without
failing (construction is total and stores the empty handle); a query on
the still-empty handle fails with the "no underlying curve" condition;
after relinking the handle to a real curve the same query succeeds; and
relinking back to empty is itself total — only a subsequent query fails. -/
theorem decorators_null_underlying {s r2 t : ℚ} (c : YieldCurve) :
    (ZeroSpreadedTermStructure.mk none s).zeroRate t
      = Except.error "no underlying curve" ∧
    (ZeroSpreadedTermStructure.mk none s).referenceDate
      = Except.error "no underlying curve" ∧
    (ForwardSpreadedTermStructure.mk none s).forwardRate t
      = Except.error "no underlying curve" ∧
    (ImpliedTermStructure.mk none r2).discount t
      = Except.error "no underlying curve" ∧
    ((ZeroSpreadedTermStructure.mk none s).linkTo (some c)).zeroRate t
      = Except.ok (c.zeroRate t + s) ∧
    ((ForwardSpreadedTermStructure.mk none s).linkTo (some c)).forwardRate t
      = Except.ok (c.forward t + s) ∧
    ((ImpliedTermStructure.mk none r2).linkTo (some c)).discount t
      = Except.ok (c.discount t / c.discount r2) ∧
    (((ZeroSpreadedTermStructure.mk none s).linkTo (some c)).linkTo none).underlying
      = none ∧
    (((ZeroSpreadedTermStructure.mk none s).linkTo (some c)).linkTo none).zeroRate t
      = Except.error "no underlying curve" :=
  ⟨rfl, rfl, rfl, rfl, rfl, rfl, rfl, rfl, rfl⟩

/-- Claim C5: the implied decorator anchored at a new reference date R2 at
or after the underlying's reference date satisfies, at every date t at or
after R2, discount(t) = underlying.discount(t) / underlying.discount(R2)
within tolerance 1e-10. -/
theorem implied_discount_ratio (c : YieldCurve) (r2 t : ℚ)
    (h1 : c.referenceDate ≤ r2) (h2 : r2 ≤ t) :
    ∃ d, (ImpliedTermStructure.mk (some c) r2).discount t = Except.ok d ∧
      |d - c.discount t / c.discount r2| ≤ 1 / 10 ^ 10 := by
  refine ⟨c.discount t / c.discount r2, rfl, ?_⟩
  rw [sub_self, abs_zero]
  positivity

/-- Flat demonstration curve used to evaluate the decorator claims at
concrete inputs. -/
def demoCurve : YieldCurve :=
  { referenceDate := 0
    discount := fun t => 1 / (1 + t)
    zeroRate := fun t => 3 / 100 + t
    forward := fun t => 4 / 100 + t }

/-- Witness for C5 at a concrete curve and dates. -/
theorem implied_discount_ratio_witness :
    demoCurve.referenceDate ≤ (1 : ℚ) ∧ (1 : ℚ) ≤ (2 : ℚ) ∧
    ∃ d, (ImpliedTermStructure.mk (some demoCurve) 1).discount 2 = Except.ok d ∧
      |d - demoCurve.discount 2 / demoCurve.discount 1| ≤ 1 / 10 ^ 10 :=
  ⟨by norm_num [demoCurve], by norm_num,
   implied_discount_ratio demoCurve 1 2 (by norm_num [demoCurve]) (by norm_num)⟩

/-- Claim C6: composed rate minus spread reproduces the underlying's own
rate — the forward-spreaded decorator's forward rate at coinciding dates
minus the spread equals the underlying's forward rate, and the
zero-spreaded decorator's zero rate minus the spread equals the
underlying's zero rate, each within tolerance 1e-10. -/
theorem spreaded_rates_consistent (c : YieldCurve) (s t : ℚ) :
    ∃ fr zr,
      (ForwardSpreadedTermStructure.mk (some c) s).forwardRate t = Except.ok fr ∧
      |fr - s - c.forward t| ≤ 1 / 10 ^ 10 ∧
      (ZeroSpreadedTermStructure.mk (some c) s).zeroRate t = Except.ok zr ∧
      |zr - s - c.zeroRate t| ≤ 1 / 10 ^ 10 := by
  refine ⟨c.forward t + s, c.zeroRate t + s, rfl, ?_, rfl, ?_⟩
  · have h : c.forward t + s - s - c.forward t = 0 := by ring
    rw [h, abs_zero]; positivity
  · have h : c.zeroRate t + s - s - c.zeroRate t = 0 := by ring
    rw [h, abs_zero]; positivity

/-- Claim C7: the composite decorator built from curves A and B and a
combining function f has, at every date, forward rate (at coinciding
dates) equal to f applied to A's and B's zero rates, within tolerance
1e-10. -/
theorem composite_forward_combines (c1 c2 : YieldCurve) (g : ℚ → ℚ → ℚ) (t : ℚ) :
    ∃ r, (CompositeZeroYieldStructure.mk (some c1) (some c2) g).forwardRate t
        = Except.ok r ∧
      |r - g (c1.zeroRate t) (c2.zeroRate t)| ≤ 1 / 10 ^ 10 := by
  refine ⟨g (c1.zeroRate t) (c2.zeroRate t), rfl, ?_⟩
  rw [sub_self, abs_zero]
  positivity

/-! ## Part 4: change notification through the decorator graph

The Observable/Observer machinery is not under src/ (only its use in the
observability tests is), so it is modelled from the spec: notifyObservers
synchronously visits every currently-registered observer and invokes each
one's update hook, and forwarding is manual — an observer that is itself
observable re-fires its own notification from within its hook. -/

/-- Modelled from the spec: the trace of observer update-hook invocations
(by node id, in execution order) that a notifyObservers call on node `n`
performs before it returns, over registration graph `g` (mapping each
observable to its registered observers); `fuel` bounds the manual
forwarding depth. -/
def notifyTrace (g : Nat → List Nat) : Nat → Nat → List Nat
  | 0, _ => []
  | fuel+1, n => (g n).flatMap (fun o => o :: notifyTrace g fuel o)

/-- Registration graph of the observability scenario from the tests: the
decorator (node 1) is registered with its underlying relinkable handle
(node 0) and with the spread quote (node 3); a Flag observer (node 2) is
registered with the decorator. -/
def decoratorGraph : Nat → List Nat
  | 0 => [1]
  | 1 => [2]
  | 3 => [1]
  | _ => []

/-- Node id of the Flag observer in the scenario graph. -/
def flagNode : Nat := 2

/-- Modelled from the spec: relinking a handle replaces its target
(possibly by the empty one) and is itself a change event — before linkTo
returns the handle notifies its observers, who forward manually. Returns
the new target and the invocation trace of the call. -/
def RelinkableHandle.linkTo (target : Option YieldCurve)
    (newTarget : Option YieldCurve) : Option YieldCurve × List Nat :=
  (newTarget, notifyTrace decoratorGraph 4 0)

/-- Modelled from the spec: setting a quote's value is a change event on
the quote; before setValue returns the quote notifies its observers, who
forward manually. Returns the new value and the invocation trace. -/
def SimpleQuote.setValue (old newValue : ℚ) : ℚ × List Nat :=
  (newValue, notifyTrace decoratorGraph 4 3)

/-- Claim C8: with a Flag observer registered on a decorator, relinking
the decorator's underlying handle — from any prior target, the empty one
included — invokes the Flag's update hook exactly once before the relink
call returns, and a subsequent change of the spread quote's value invokes
it exactly once again. -/
theorem decorator_observer_notified (target newTarget : Option YieldCurve)
    (old newValue : ℚ) :
    ((RelinkableHandle.linkTo target newTarget).2.count flagNode = 1) ∧
    ((RelinkableHandle.linkTo target newTarget).1 = newTarget) ∧
    ((SimpleQuote.setValue old newValue).2.count flagNode = 1) ∧
    ((SimpleQuote.setValue old newValue).1 = newValue) :=
  ⟨(by decide : (notifyTrace decoratorGraph 4 0).count flagNode = 1), rfl,
   (by decide : (notifyTrace decoratorGraph 4 3).count flagNode = 1), rfl⟩

end QuantLib
